import Mathlib

/-!
# Verification of the PMO Portfolio cached, paginated query layer

Shallow embedding of `backend/cache_service.py`, `backend/pagination_service.py`
and `backend/databricks_client.py`.  Python values are modelled by `PyValue`,
machine-level 32-bit arithmetic (for the MD5 key hash) by `Nat` with explicit
reduction modulo `2 ^ 32`, fallible operations by `Option`/`Except`, and the
mutable two-tier cache by explicit state passing over `CacheState` with an
explicit clock (`now : Nat`, seconds).
-/

set_option maxRecDepth 100000

namespace PMO

/-! ## 32-bit word arithmetic and MD5 (`hashlib.md5`)

`CacheService._generate_key` hashes with MD5, so we embed the real MD5
algorithm over byte lists, with 32-bit words as `Nat` values reduced mod
`2 ^ 32`. -/

def mask32 (n : Nat) : Nat := n % 4294967296

def rotl32 (x s : Nat) : Nat := mask32 (x * 2 ^ s + x / 2 ^ (32 - s))

def not32 (x : Nat) : Nat := 4294967295 - x

/-- MD5 per-round left-rotation amounts. -/
def md5S : List Nat :=
  [7, 12, 17, 22, 7, 12, 17, 22, 7, 12, 17, 22, 7, 12, 17, 22,
   5, 9, 14, 20, 5, 9, 14, 20, 5, 9, 14, 20, 5, 9, 14, 20,
   4, 11, 16, 23, 4, 11, 16, 23, 4, 11, 16, 23, 4, 11, 16, 23,
   6, 10, 15, 21, 6, 10, 15, 21, 6, 10, 15, 21, 6, 10, 15, 21]

/-- MD5 round constants `K[i] = floor(2^32 * |sin(i+1)|)`. -/
def md5K : List Nat :=
  [3614090360, 3905402710, 606105819, 3250441966, 4118548399, 1200080426,
   2821735955, 4249261313, 1770035416, 2336552879, 4294925233, 2304563134,
   1804603682, 4254626195, 2792965006, 1236535329, 4129170786, 3225465664,
   643717713, 3921069994, 3593408605, 38016083, 3634488961, 3889429448,
   568446438, 3275163606, 4107603335, 1163531501, 2850285829, 4243563512,
   1735328473, 2368359562, 4294588738, 2272392833, 1839030562, 4259657740,
   2763975236, 1272893353, 4139469664, 3200236656, 681279174, 3936430074,
   3572445317, 76029189, 3654602809, 3873151461, 530742520, 3299628645,
   4096336452, 1126891415, 2878612391, 4237533241, 1700485571, 2399980690,
   4293915773, 2240044497, 1873313359, 4264355552, 2734768916, 1309151649,
   4149444226, 3174756917, 718787259, 3951481745]

/-- One MD5 operation on the state `(a, b, c, d)`; `m` is the current
16-word message block. -/
def md5Round (m : List Nat) (st : Nat × Nat × Nat × Nat) (i : Nat) :
    Nat × Nat × Nat × Nat :=
  let (a, b, c, d) := st
  let f :=
    if i < 16 then Nat.lor (Nat.land b c) (Nat.land (not32 b) d)
    else if i < 32 then Nat.lor (Nat.land d b) (Nat.land (not32 d) c)
    else if i < 48 then Nat.xor (Nat.xor b c) d
    else Nat.xor c (Nat.lor b (not32 d))
  let g :=
    if i < 16 then i
    else if i < 32 then (5 * i + 1) % 16
    else if i < 48 then (3 * i + 5) % 16
    else (7 * i) % 16
  let x := mask32 (a + f + md5K.getD i 0 + m.getD g 0)
  (d, mask32 (b + rotl32 x (md5S.getD i 0)), b, c)

/-- Process one 16-word block, adding the round output into the chaining
state. -/
def md5ProcessBlock (st : Nat × Nat × Nat × Nat) (m : List Nat) :
    Nat × Nat × Nat × Nat :=
  let (a0, b0, c0, d0) := st
  let (a, b, c, d) := (List.range 64).foldl (md5Round m) st
  (mask32 (a0 + a), mask32 (b0 + b), mask32 (c0 + c), mask32 (d0 + d))

/-- `k` little-endian bytes of `n`. -/
def leBytes (n k : Nat) : List Nat := (List.range k).map fun i => n / 256 ^ i % 256

/-- MD5 padding: a `0x80` byte, zeros to 56 mod 64, then the 64-bit
little-endian bit length. -/
def md5Pad (msg : List Nat) : List Nat :=
  msg ++ [128] ++ List.replicate ((56 + 64 - (msg.length + 1) % 64) % 64) 0 ++
    leBytes (8 * msg.length % 18446744073709551616) 8

/-- Little-endian 32-bit words from a byte list (length a multiple of 4). -/
def bytesToWords : List Nat → List Nat
  | b0 :: b1 :: b2 :: b3 :: rest =>
      (b0 + 256 * b1 + 65536 * b2 + 16777216 * b3) :: bytesToWords rest
  | _ => []

/-- Fold the MD5 block function over `n` consecutive 16-word chunks. -/
def md5Main : Nat → Nat × Nat × Nat × Nat → List Nat → Nat × Nat × Nat × Nat
  | 0, st, _ => st
  | n + 1, st, ws => md5Main n (md5ProcessBlock st (ws.take 16)) (ws.drop 16)

def hexDigit (n : Nat) : Char :=
  if n < 10 then Char.ofNat (48 + n) else Char.ofNat (87 + n)

def byteHex (b : Nat) : List Char := [hexDigit (b / 16), hexDigit (b % 16)]

def wordLEHex (w : Nat) : List Char := ((leBytes w 4).map byteHex).flatten

/-- Lowercase hex MD5 digest of a byte list (`hashlib.md5(..).hexdigest()`). -/
def md5Hex (msg : List Nat) : String :=
  let words := bytesToWords (md5Pad msg)
  let (a, b, c, d) :=
    md5Main (words.length / 16)
      (1732584193, 4023233417, 2562383102, 271733878) words
  String.mk (wordLEHex a ++ wordLEHex b ++ wordLEHex c ++ wordLEHex d)

/-! ## UTF-8 encoding (`str.encode()`) -/

/-- UTF-8 bytes of one character. -/
def utf8Bytes (c : Char) : List Nat :=
  let n := c.toNat
  if n < 128 then [n]
  else if n < 2048 then [192 + n / 64, 128 + n % 64]
  else if n < 65536 then [224 + n / 4096, 128 + n / 64 % 64, 128 + n % 64]
  else [240 + n / 262144, 128 + n / 4096 % 64, 128 + n / 64 % 64, 128 + n % 64]

/-- UTF-8 bytes of a string (Python `s.encode()`). -/
def strBytes (s : String) : List Nat := (s.data.map utf8Bytes).flatten

example : md5Hex (strBytes "") = "d41d8cd98f00b204e9800998ecf8427e" := by rfl

example : md5Hex (strBytes "abc") = "900150983cd24fb0d6963f7d28e17f72" := by rfl

/-! ## Python string primitives -/

/-- The ASCII case of Python `str.upper` on one character. -/
def asciiUpperChar (c : Char) : Char :=
  if 'a' ≤ c ∧ c ≤ 'z' then Char.ofNat (c.toNat - 32) else c

/-- Python `str.upper` maps one character to a *string*: Unicode full case
mapping can expand a character (`'ß'.upper() = 'SS'`) or map a non-ASCII
character into ASCII (`'ı'.upper() = 'I'`).  The model is exact on the
ASCII range and tabulates the expanding / ASCII-targeting mappings
exercised below; the remaining non-ASCII letters (whose mappings are
length-preserving and stay outside the `LIMIT` alphabet) are modelled as
case-invariant, which is why the universal theorems about
`upper`-dependent functions carry an all-ASCII-query hypothesis. -/
def pyUpperChar (c : Char) : List Char :=
  if 'a' ≤ c ∧ c ≤ 'z' then [Char.ofNat (c.toNat - 32)]
  else if c = 'ß' then ['S', 'S']
  else if c = 'ı' then ['I']
  else [c]

/-- Python `s.upper()`. -/
def pyUpper (s : String) : String := String.mk ((s.data.map pyUpperChar).flatten)

/-- Python `str` whitespace (the default strip set). -/
def isPyWhitespace (c : Char) : Bool :=
  c = ' ' ∨ c = '\t' ∨ c = '\n' ∨ c = '\r' ∨ c = '\x0b' ∨ c = '\x0c'

/-- Remove trailing characters satisfying `p`. -/
def pyRstripList (l : List Char) (p : Char → Bool) : List Char :=
  (l.reverse.dropWhile p).reverse

/-- Python `s.rstrip()`. -/
def pyRstrip (s : String) : String := String.mk (pyRstripList s.data isPyWhitespace)

/-- Python `s.rstrip(';')`. -/
def pyRstripSemi (s : String) : String := String.mk (pyRstripList s.data (· = ';'))

/-- Highest index `i ≤ bound` at which `sub` occurs in `l`, searching
downward. -/
def rfindFrom (l sub : List Char) : Nat → Option Nat
  | 0 => if sub.isPrefixOf l then some 0 else none
  | i + 1 =>
      if sub.isPrefixOf (l.drop (i + 1)) then some (i + 1) else rfindFrom l sub i

/-- Python `s.rfind(sub)` (as an `Option`; Python returns `-1` on absence).
Also decides Python's `sub in s`: containment holds iff this is `some`. -/
def pyRfind (l sub : List Char) : Option Nat := rfindFrom l sub l.length

/-- Clamp a Python slice index into `[0, n]` (negative indices count from
the end). -/
def pyBound (n : Nat) (i : Int) : Nat :=
  if i < 0 then (i + n).toNat else min i.toNat n

/-- Python slice `l[a:b]`. -/
def pySlice {α : Type} (l : List α) (a b : Int) : List α :=
  (l.take (pyBound l.length b)).drop (pyBound l.length a)

/-- Base-10 digit characters of `n`, most significant first (the fuel
argument dominates the digit count, so the recursion is structural and
kernel-reducible). -/
def natDigitsAux : Nat → Nat → List Char
  | 0, _ => []
  | fuel + 1, n =>
      if n < 10 then [Nat.digitChar n]
      else natDigitsAux fuel (n / 10) ++ [Nat.digitChar (n % 10)]

/-- Python `str(n)` for a natural number. -/
def pyNatStr (n : Nat) : String := String.mk (natDigitsAux (n + 1) n)

/-- Python `str(n)` for an integer. -/
def pyIntStr (n : Int) : String :=
  if n < 0 then "-" ++ pyNatStr (-n).toNat else pyNatStr n.toNat

example : pyIntStr (-5) = "-5" := by rfl
example : pyIntStr 1050 = "1050" := by rfl

/-! ## Python values

`PyValue` models the JSON-serializable Python values the service caches:
`None`, booleans, integers, strings, lists and string-keyed dicts. -/

inductive PyValue where
  | none
  | bool (b : Bool)
  | int (n : Int)
  | str (s : String)
  | list (xs : List PyValue)
  | dict (kvs : List (String × PyValue))

/-- Python truthiness (`if value:`). -/
def PyValue.truthy : PyValue → Bool
  | .none => false
  | .bool b => b
  | .int n => decide (n ≠ 0)
  | .str s => !s.data.isEmpty
  | .list xs => !xs.isEmpty
  | .dict kvs => !kvs.isEmpty

/-- Escapes of one character inside a Python string repr quoted by `q`
(ASCII control chars; Python additionally escapes unprintable Unicode,
which the cached SQL/analytics payloads do not contain). -/
def pyReprCharEsc (q c : Char) : List Char :=
  if c = '\\' then ['\\', '\\']
  else if c = q then ['\\', q]
  else if c = '\n' then ['\\', 'n']
  else if c = '\r' then ['\\', 'r']
  else if c = '\t' then ['\\', 't']
  else if c.toNat < 32 ∨ c.toNat = 127 then '\\' :: 'x' :: byteHex c.toNat
  else [c]

/-- Python `repr` of a string: single quotes, except double quotes when the
string contains `'` but no `"`. -/
def pyReprStr (s : String) : String :=
  let q := if s.data.contains '\'' ∧ ¬ s.data.contains '"' then '"' else '\''
  String.mk (q :: (s.data.map (pyReprCharEsc q)).flatten ++ [q])

mutual

/-- Python `repr` of a value (`str` and `repr` agree on containers, and
f-string interpolation of a dict uses exactly this form). -/
def PyValue.pyRepr : PyValue → String
  | .none => "None"
  | .bool true => "True"
  | .bool false => "False"
  | .int n => pyIntStr n
  | .str s => pyReprStr s
  | .list xs => "[" ++ pyReprListInner xs ++ "]"
  | .dict kvs => "\x7b" ++ pyReprDictInner kvs ++ "\x7d"

/-- Comma-separated reprs of list elements. -/
def pyReprListInner : List PyValue → String
  | [] => ""
  | [v] => v.pyRepr
  | v :: w :: rest => v.pyRepr ++ ", " ++ pyReprListInner (w :: rest)

/-- Comma-separated `'key': value` reprs of dict items (insertion order!). -/
def pyReprDictInner : List (String × PyValue) → String
  | [] => ""
  | [(k, v)] => pyReprStr k ++ ": " ++ v.pyRepr
  | (k, v) :: kv :: rest =>
      pyReprStr k ++ ": " ++ v.pyRepr ++ ", " ++ pyReprDictInner (kv :: rest)

end

/-- Python `str(d)` for a dict given as its insertion-ordered item list. -/
def pyDictRepr (kvs : List (String × PyValue)) : String := (PyValue.dict kvs).pyRepr

example : pyDictRepr [] = "\x7b\x7d" := by rfl

example :
    pyDictRepr [("a", .int 1), ("b", .int 2)] = "\x7b'a': 1, 'b': 2\x7d" := by rfl

/-- Python substring containment `sub in s` (decided through `rfind`). -/
def strContains (s sub : String) : Bool := (pyRfind s.data sub.data).isSome

/-! ## Cache service (`backend/cache_service.py`, class `CacheService`)

The primary (Redis) tier is `none` when construction failed (`redis`
unimportable or the ping raised); a present tier whose every call raises is
modelled by `failing := true`.  The fallback (diskcache) tier is `none`
when both initialization attempts failed.  Entries carry the absolute
expiry instant (`now + ttl`); both stores return a miss for an expired
entry.  Disk entries can only pre-exist in the store's backing files: this
program's own `set` never succeeds in writing one (see `CacheService.set`).
Redis serializes through `json.dumps`/`json.loads`, which round-trips the
JSON-representable `PyValue`s, so entries store the value itself; the
serialized form of any value is a nonempty — hence truthy — string. -/

structure RedisEntry where
  key : String
  value : PyValue
  expire : Nat

structure RedisState where
  entries : List RedisEntry
  failing : Bool

structure DiskEntry where
  key : String
  value : PyValue
  expire : Nat

structure CacheState where
  redis : Option RedisState
  disk : Option (List DiskEntry)
  default_ttl : Nat

namespace CacheService

/-- `CacheService._generate_key`: hashes `key_data = f"{query}_{params or {}}"`
with MD5 and prefixes the namespace tag.  `params or {}` turns an absent
*or empty* mapping into `{}`; a nonempty dict is rendered by `str` in
insertion order. -/
def generate_key (query : String) (params : Option (List (String × PyValue))) :
    String :=
  let key_data := query ++ "_" ++ pyDictRepr (params.getD [])
  "pmo_query_" ++ md5Hex (strBytes key_data)

/-- `redis.get`: `setex`-stored entries expire `ttl` seconds after the
write; a live entry deserializes back to the stored value. -/
def redisLookup (r : RedisState) (now : Nat) (key : String) : Option PyValue :=
  match r.entries.find? (fun e => e.key == key) with
  | some e => if now < e.expire then some e.value else none
  | none => none

/-- `diskcache.Cache.get`: returns the default (`None`) past the expiry
instant. -/
def diskLookup (d : List DiskEntry) (now : Nat) (key : String) : Option PyValue :=
  match d.find? (fun e => e.key == key) with
  | some e => if now < e.expire then some e.value else none
  | none => none

/-- A Python function returning the object `None` is indistinguishable
from one signalling absence, so a `PyValue.none` result collapses to
`Option.none`. -/
def pyToOption : PyValue → Option PyValue
  | .none => none
  | v => some v

/-- `CacheService.get`.  Redis is tried first unless absent; an erroring
tier is caught and falls through.  A Redis hit returns
`json.loads(cached)` at once (the guard `if cached:` tests the serialized
*string*, which is always truthy); a disk hit is guarded by `if cached:`
on the *value*, so a falsy stored value falls through to the final
`return None`. -/
def get (st : CacheState) (now : Nat) (query : String)
    (params : Option (List (String × PyValue))) : Option PyValue :=
  let cache_key := generate_key query params
  let fromDisk : Option PyValue :=
    match st.disk with
    | some d =>
        match diskLookup d now cache_key with
        | some v => if v.truthy then some v else none
        | none => none
    | none => none
  match st.redis with
  | some r =>
      if r.failing then fromDisk
      else
        match redisLookup r now cache_key with
        | some v => pyToOption v
        | none => fromDisk
  | none => fromDisk

/-- `redis.setex`: store with absolute expiry, replacing any entry under
the same key. -/
def redisSet (r : RedisState) (key : String) (v : PyValue) (expire : Nat) :
    RedisState :=
  { r with
    entries :=
      { key := key, value := v, expire := expire } ::
        r.entries.filter (fun e => !(e.key == key)) }

/-- `CacheService.set`: attempts Redis (a raising tier is caught), then
attempts the disk tier, and reports success when at least one tier wrote.
`ttl = ttl or self.default_ttl` maps an absent or zero TTL to the default.

The disk attempt **always fails**: the code computes
`expire_time = datetime.now() + timedelta(seconds=ttl)` and passes it as
`diskcache.Cache.set`'s `expire` argument, but that parameter is a float
of *seconds* (diskcache computes `time.time() + expire`), so the call
raises `TypeError: unsupported operand type(s) for +: 'float' and
'datetime.datetime'`, which the surrounding `except` swallows — no disk
entry is ever written and the disk tier contributes no success. -/
def set (st : CacheState) (now : Nat) (query : String) (data : PyValue)
    (ttl : Option Nat) (params : Option (List (String × PyValue))) :
    Bool × CacheState :=
  let cache_key := generate_key query params
  let ttlEff := match ttl with
    | some t => if t = 0 then st.default_ttl else t
    | none => st.default_ttl
  let redisRes : Bool × Option RedisState := match st.redis with
    | some r =>
        if r.failing then (false, some r)
        else (true, some (redisSet r cache_key data (now + ttlEff)))
    | none => (false, none)
  let diskRes : Bool × Option (List DiskEntry) := match st.disk with
    | some _ => (false, st.disk)
    | none => (false, none)
  (redisRes.1 || diskRes.1, { st with redis := redisRes.2, disk := diskRes.2 })

/-- `CacheService.clear_cache`.  With a pattern: only Redis keys matching
`*pattern*` are deleted (a raising Redis is caught and yields `False`).
Without a pattern: only the disk tier is cleared.  Returns `True` when no
tier call raised. -/
def clear_cache (st : CacheState) (pattern : Option String) : Bool × CacheState :=
  match pattern with
  | some p =>
      match st.redis with
      | some r =>
          if r.failing then (false, st)
          else
            (true,
              { st with
                redis := some
                  { r with entries := r.entries.filter fun e => !(strContains e.key p) } })
      | none => (true, st)
  | none => (true, { st with disk := st.disk.map fun _ => ([] : List DiskEntry) })

end CacheService

/-- The module-level instance: `CacheService(cache_dir="cache", default_ttl=300)`. -/
def cacheServiceDefaultTtl : Nat := 300

/-! ## Query orchestrator (`backend/databricks_client.py`, class
`DatabricksClient`)

The warehouse connector is an external collaborator: it is passed in as a
function `remote` from the final query text to either rows or an error
(covering connection failures as well — `connect()` errors and cursor
errors both propagate).  Rows are returned (and cached) as a Python list,
modelled as `PyValue.list`. -/

namespace DatabricksClient

/-- `f"{query}_{str(parameters) if parameters else ''}"`: the orchestrator's
own composite cache-key string. -/
def paramSuffix : Option (List (String × PyValue)) → String
  | some ps => if ps.isEmpty then "" else pyDictRepr ps
  | none => ""

/-- The implicit-bound step of `execute_query`: queries longer than 2000
characters with no `LIMIT` (case-insensitively) get a conservative bound
appended — `LIMIT 15000` for narrowly filtered investment queries,
`LIMIT 100` otherwise. -/
def effectiveQuery (query : String) : String :=
  if 2000 < query.length ∧ ¬ strContains (pyUpper query) "LIMIT" then
    if strContains query "WHERE INV_EXT_ID IN" then
      pyRstripSemi query ++ "\nLIMIT 15000;"
    else
      pyRstripSemi query ++ "\nLIMIT 100;"
  else query

/-- `DatabricksClient.execute_query`.  On a cache hit (a non-`None` cached
value) the remote connector is never consulted.  Otherwise a conservative
`LIMIT` is injected into over-long unbounded queries, the connector runs,
and a *nonempty* row list is written back to the cache with the given
TTL. -/
def execute_query (st : CacheState) (now : Nat)
    (remote : String → Except String (List PyValue))
    (query : String) (parameters : Option (List (String × PyValue)))
    (use_cache : Bool) (cache_ttl : Nat) :
    Except String (PyValue × CacheState) :=
  let cache_key := query ++ "_" ++ paramSuffix parameters
  match (if use_cache then CacheService.get st now cache_key none else none) with
  | some cached => .ok (cached, st)
  | none =>
      match remote (effectiveQuery query) with
      | .error e => .error e
      | .ok rows =>
          if use_cache && !rows.isEmpty then
            .ok (PyValue.list rows,
              (CacheService.set st now cache_key (PyValue.list rows)
                (some cache_ttl) none).2)
          else .ok (PyValue.list rows, st)

/-- `DatabricksClient.execute_query_unlimited`: same caching shape keyed on
the raw query text, with no implicit `LIMIT` injection. -/
def execute_query_unlimited (st : CacheState) (now : Nat)
    (remote : String → Except String (List PyValue))
    (query : String) (use_cache : Bool) (cache_ttl : Nat) :
    Except String (PyValue × CacheState) :=
  match (if use_cache then CacheService.get st now query none else none) with
  | some cached => .ok (cached, st)
  | none =>
      match remote query with
      | .error e => .error e
      | .ok rows =>
          if use_cache && !rows.isEmpty then
            .ok (PyValue.list rows,
              (CacheService.set st now query (PyValue.list rows)
                (some cache_ttl) none).2)
          else .ok (PyValue.list rows, st)

end DatabricksClient

/-! ## Pagination service (`backend/pagination_service.py`, class
`PaginationService`)

Python integers are unbounded, so pages/sizes are `Int`; an omitted
`page_size` argument is `Option.none`. -/

structure PaginationService where
  default_page_size : Int
  max_page_size : Int

/-- The module-level instance:
`PaginationService(default_page_size=50, max_page_size=200)`. -/
def pagination_service : PaginationService := ⟨50, 200⟩

namespace PaginationService

/-- `page_size = min(page_size or self.default_page_size, self.max_page_size)`
— the clamp both `add_pagination_to_query` and `paginate_list` begin with.
`page_size or default` replaces a falsy (absent or zero) size by the
default; there is no lower clamp. -/
def effPageSize (svc : PaginationService) (page_size : Option Int) : Int :=
  min
    (match page_size with
     | some n => if n = 0 then svc.default_page_size else n
     | none => svc.default_page_size)
    svc.max_page_size

/-- `page = max(1, page)`. -/
def effPage (page : Int) : Int := max 1 page

/-- The `LIMIT`-stripping step of `add_pagination_to_query`: when `LIMIT`
occurs in the uppercased query, cut at its *last* occurrence and strip
trailing whitespace (`query[:limit_pos].rstrip()`). -/
def stripLimitTail (q : String) : String :=
  match pyRfind (pyUpper q).data "LIMIT".data with
  | some i => pyRstrip (String.mk (q.data.take i))
  | none => q

/-- The claim's intended strip, stated on the query's own characters: cut
at the last `LIMIT` occurrence of the *same-length* character-wise
uppercased query, so the cut index refers to the original string.  For
all-ASCII queries `stripLimitTail` coincides with this; for queries with
length-changing case mappings (`'ß'` → `'SS'`) the code's index is taken
in the longer `upper()` output and misaligns. -/
def stripLimitTailAscii (q : String) : String :=
  match pyRfind (q.data.map asciiUpperChar) "LIMIT".data with
  | some i => pyRstrip (String.mk (q.data.take i))
  | none => q

/-- `PaginationService.add_pagination_to_query`. -/
def add_pagination_to_query (svc : PaginationService) (query : String)
    (page : Int) (page_size : Option Int) : String :=
  let ps := effPageSize svc page_size
  let pg := effPage page
  let offset := (pg - 1) * ps
  pyRstripSemi (stripLimitTail query) ++ "\nLIMIT " ++ pyIntStr ps ++
    " OFFSET " ++ pyIntStr offset ++ ";"

/-- The `"pagination"` mapping of
`PaginationService.create_pagination_metadata`. -/
structure PaginationMeta where
  current_page : Int
  page_size : Int
  total_count : Int
  total_pages : Int
  has_next : Bool
  has_previous : Bool
  next_page : Option Int
  previous_page : Option Int
  deriving DecidableEq

/-- `PaginationService.create_pagination_metadata`.  The Python expression
`math.ceil(total_count / page_size) if total_count > 0 else 0` raises
`ZeroDivisionError` (modelled as `none`) when `total_count > 0` and
`page_size == 0`.  The true division `/` produces an IEEE-754 double; this
embedding idealizes it as the exact rational quotient, which agrees with
the program only while the quotient's rounding does not cross an integer
boundary — e.g. the program returns `2^53` for
`total_count = 2^53 + 1, page_size = 1` (the float rounds down to the
nearest even significand), and raises `OverflowError` for astronomically
large quotients; neither float effect is modelled here. -/
def create_pagination_metadata (total_count page page_size : Int) :
    Option PaginationMeta :=
  if 0 < total_count ∧ page_size = 0 then none
  else
    let total_pages : Int :=
      if 0 < total_count then Int.ceil ((total_count : ℚ) / (page_size : ℚ)) else 0
    let hasNext : Bool := decide (page < total_pages)
    let hasPrevious : Bool := decide (1 < page)
    some
      { current_page := page
        page_size := page_size
        total_count := total_count
        total_pages := total_pages
        has_next := hasNext
        has_previous := hasPrevious
        next_page := if hasNext then some (page + 1) else none
        previous_page := if hasPrevious then some (page - 1) else none }

/-- The result shape of `paginate_list`: `{"data": ..., "pagination": ...}`. -/
structure PaginatedList (α : Type) where
  data : List α
  pagination : PaginationMeta

/-- `PaginationService.paginate_list`: clamp, slice
`data[start_idx:end_idx]`, attach metadata (whose potential
`ZeroDivisionError` propagates). -/
def paginate_list {α : Type} (svc : PaginationService) (data : List α)
    (page : Int) (page_size : Option Int) : Option (PaginatedList α) :=
  let ps := effPageSize svc page_size
  let pg := effPage page
  let total_count : Int := data.length
  let start_idx := (pg - 1) * ps
  let end_idx := start_idx + ps
  let paginated := pySlice data start_idx end_idx
  (create_pagination_metadata total_count pg ps).map fun m =>
    { data := paginated, pagination := m }

end PaginationService

/-! ## Helper lemmas -/

/-- A nonnegative slice window `[aN, aN + sN)` clipped to the list length
is `take sN` of `drop aN`. -/
theorem take_min_drop_min {α : Type} (l : List α) (aN sN : Nat) :
    (l.take (min (aN + sN) l.length)).drop (min aN l.length) =
      (l.drop aN).take sN := by
  by_cases h : aN ≤ l.length
  · rw [min_eq_left h, List.drop_take, List.take_eq_take, List.length_drop]
    omega
  · rw [min_eq_right (by omega : l.length ≤ aN),
      List.drop_eq_nil_of_le (by omega : l.length ≤ aN), List.take_nil]
    apply List.drop_eq_nil_of_le
    rw [List.length_take]
    omega

/-- On ASCII characters, Python `upper` is the single-character ASCII
case map. -/
theorem pyUpperChar_ascii (c : Char) (h : c.toNat < 128) :
    pyUpperChar c = [asciiUpperChar c] := by
  have hss : c ≠ 'ß' := fun e => by subst e; exact absurd h (by decide)
  have hii : c ≠ 'ı' := fun e => by subst e; exact absurd h (by decide)
  unfold pyUpperChar asciiUpperChar
  by_cases hl : 'a' ≤ c ∧ c ≤ 'z'
  · rw [if_pos hl, if_pos hl]
  · rw [if_neg hl, if_neg hss, if_neg hii, if_neg hl]

theorem flatten_map_eq_map (f : Char → List Char) (g : Char → Char) :
    ∀ l : List Char, (∀ a ∈ l, f a = [g a]) → (l.map f).flatten = l.map g := by
  intro l
  induction l with
  | nil => intro _; rfl
  | cons a t ih =>
    intro h
    simp only [List.map_cons, List.flatten_cons, h a (List.mem_cons_self a t),
      ih fun b hb => h b (List.mem_cons_of_mem a hb)]
    rfl

/-- On all-ASCII strings, `upper` acts characterwise (length-preserving). -/
theorem pyUpper_data_ascii (s : String) (h : ∀ c ∈ s.data, c.toNat < 128) :
    (pyUpper s).data = s.data.map asciiUpperChar :=
  flatten_map_eq_map pyUpperChar asciiUpperChar s.data
    fun a ha => pyUpperChar_ascii a (h a ha)

/-- C9: a `clear_cache` with no pattern reports success, leaves every
primary-tier (Redis) entry unchanged, and clears only the fallback disk
tier. -/
theorem C9_clear_without_pattern_preserves_primary (st : CacheState) :
    (CacheService.clear_cache st none).1 = true ∧
    (CacheService.clear_cache st none).2.redis = st.redis ∧
    (CacheService.clear_cache st none).2.disk =
      st.disk.map (fun _ => ([] : List DiskEntry)) :=
  ⟨rfl, rfl, rfl⟩

/-- C3 fails as stated: a requested page size of `-5` is *not* raised to 1.
`page_size or default` only replaces falsy (zero/absent) sizes, and
`min(…, max_page_size)` never raises a value, so both the query rewriter
and the list paginator actually use the effective page size `-5`. -/
theorem C3_counterexample :
    PaginationService.add_pagination_to_query pagination_service "SELECT 1" 1
        (some (-5)) = "SELECT 1\nLIMIT -5 OFFSET 0;" ∧
    (PaginationService.paginate_list pagination_service [PyValue.int 1] 1
        (some (-5))).map (fun r => r.pagination.page_size) = some (-5) ∧
    ¬ (1 : Int) ≤ -5 :=
  ⟨rfl, rfl, by decide⟩

/-- C3 amended: in every call to the rewriter and the list paginator the
effective page number is clamped to `≥ 1` and the effective page size is
clamped to at most `max_page_size`; a requested size that is *nonzero* is
otherwise used as-is (`min(requested, max)` — so sizes below 1 are **not**
raised), and a zero or absent size becomes
`min(default_page_size, max_page_size)`.  (Both `add_pagination_to_query`
and `paginate_list` begin with exactly these two clamp expressions,
embedded as `effPage` / `effPageSize`.) -/
theorem C3_clamping (svc : PaginationService) (page : Int)
    (page_size : Option Int) :
    1 ≤ PaginationService.effPage page ∧
    PaginationService.effPageSize svc page_size ≤ svc.max_page_size ∧
    (∀ n, page_size = some n → n ≠ 0 →
      PaginationService.effPageSize svc page_size = min n svc.max_page_size) ∧
    ((page_size = none ∨ page_size = some 0) →
      PaginationService.effPageSize svc page_size =
        min svc.default_page_size svc.max_page_size) := by
  refine ⟨le_max_left 1 page, min_le_right _ _, ?_, ?_⟩
  · intro n hn hn0
    subst hn
    simp [PaginationService.effPageSize, hn0]
  · rintro (h | h) <;> subst h <;> simp [PaginationService.effPageSize]

theorem C3_clamping_witness :
    1 ≤ PaginationService.effPage 0 ∧
    PaginationService.effPageSize pagination_service (some (-5)) ≤
      pagination_service.max_page_size ∧
    (∀ n, (some (-5) : Option Int) = some n → n ≠ 0 →
      PaginationService.effPageSize pagination_service (some (-5)) =
        min n pagination_service.max_page_size) ∧
    (((some (-5) : Option Int) = none ∨ (some (-5) : Option Int) = some 0) →
      PaginationService.effPageSize pagination_service (some (-5)) =
        min pagination_service.default_page_size
          pagination_service.max_page_size) :=
  C3_clamping pagination_service 0 (some (-5))

/-- An in-range requested page size passes through the clamp unchanged. -/
theorem effPageSize_of_in_range (svc : PaginationService) (s : Int)
    (hs : s ≠ 0) (hmax : s ≤ svc.max_page_size) :
    PaginationService.effPageSize svc (some s) = s := by
  simp [PaginationService.effPageSize, hs, min_eq_left hmax]

/-- A page number already `≥ 1` passes through the clamp unchanged. -/
theorem effPage_of_ge (page : Int) (hp : 1 ≤ page) :
    PaginationService.effPage page = page := max_eq_right hp

/-- A nonnegative Python slice `l[a : a+s]` is `take s` of `drop a`. -/
theorem pySlice_nonneg {α : Type} (l : List α) (a s : Int)
    (ha : 0 ≤ a) (hs : 0 ≤ s) :
    pySlice l a (a + s) = (l.drop a.toNat).take s.toNat := by
  unfold pySlice pyBound
  rw [if_neg (by omega), if_neg (by omega), Int.toNat_add ha hs]
  exact take_min_drop_min l a.toNat s.toNat

/-- C8: for `page ≥ 1` and an effective page size `s ∈ [1, max_page_size]`,
`paginate_list` returns exactly the elements at indices
`[(page-1)*s, (page-1)*s + s)` clipped to the list bounds — an
out-of-range page gives an empty slice, never an error. -/
theorem C8_paginate_list_slice {α : Type} (svc : PaginationService)
    (data : List α) (page s : Int)
    (hp : 1 ≤ page) (hs : 1 ≤ s) (hmax : s ≤ svc.max_page_size) :
    (PaginationService.paginate_list svc data page (some s)).map
        (fun r => r.data) =
      some ((data.drop ((page - 1) * s).toNat).take s.toNat) := by
  simp only [PaginationService.paginate_list,
    effPageSize_of_in_range svc s (by omega) hmax, effPage_of_ge page hp]
  unfold PaginationService.create_pagination_metadata
  rw [if_neg (fun h => absurd h.2 (by omega))]
  simp only [Option.map_some]
  rw [pySlice_nonneg data _ s (mul_nonneg (by omega) (by omega)) (by omega)]
  rfl

theorem C8_paginate_list_slice_witness :
    (1 : Int) ≤ 3 ∧ (1 : Int) ≤ 5 ∧ (5 : Int) ≤ pagination_service.max_page_size ∧
    (PaginationService.paginate_list pagination_service
        [1, 2, 3, 4, 5, 6, 7, 8, 9, 10] 3 (some 5)).map (fun r => r.data) =
      some ((([1, 2, 3, 4, 5, 6, 7, 8, 9, 10] : List Nat).drop
        (((3 : Int) - 1) * 5).toNat).take (5 : Int).toNat) ∧
    (PaginationService.paginate_list pagination_service
        [1, 2, 3, 4, 5, 6, 7, 8, 9, 10] 3 (some 5)).map (fun r => r.data) =
      some ([] : List Nat) ∧
    (PaginationService.paginate_list pagination_service
        [1, 2, 3, 4, 5, 6, 7, 8, 9, 10] 1 (some 5)).map (fun r => r.data) =
      some [1, 2, 3, 4, 5] :=
  ⟨by decide, by decide, by decide,
    C8_paginate_list_slice pagination_service _ 3 5 (by decide) (by decide)
      (by decide),
    by rfl, by rfl⟩

/-- On all-ASCII queries the code's `LIMIT` strip coincides with the
index-coherent strip on the query's own characters. -/
theorem stripLimitTail_eq_ascii (q : String)
    (h : ∀ c ∈ q.data, c.toNat < 128) :
    PaginationService.stripLimitTail q =
      PaginationService.stripLimitTailAscii q := by
  unfold PaginationService.stripLimitTail PaginationService.stripLimitTailAscii
  rw [pyUpper_data_ascii q h]

/-- C6 fails as stated: `'ß'.upper() = 'SS'` lengthens the uppercased
query, so `rfind('LIMIT')` returns an index in the longer string which is
then used to slice the *original* — the pre-existing bounding clause is
not stripped cleanly (a stray `L` of it survives). -/
theorem C6_counterexample :
    PaginationService.add_pagination_to_query pagination_service
        "SELECT 'Straße' FROM t LIMIT 5" 1 none =
      "SELECT 'Straße' FROM t L\nLIMIT 50 OFFSET 0;" ∧
    PaginationService.add_pagination_to_query pagination_service
        "SELECT 'Straße' FROM t LIMIT 5" 1 none ≠
      "SELECT 'Straße' FROM t\nLIMIT 50 OFFSET 0;" :=
  ⟨rfl, by decide⟩

/-- C6 amended: for every *all-ASCII* query (each character below U+0080),
`page ≥ 1` and `page_size ∈ [1, max_page_size]`, the rewriter strips the
pre-existing bounding clause from the tail — cutting at the last
case-insensitive `LIMIT` occurrence, at an index valid in the original
string — and appends exactly one new clause
`LIMIT page_size OFFSET (page-1)*page_size`; on queries with
length-changing case mappings the cut index misaligns and remnants of the
old clause can survive. -/
theorem C6_rewrite_appends_bound (svc : PaginationService) (q : String)
    (page s : Int) (hascii : ∀ c ∈ q.data, c.toNat < 128)
    (hp : 1 ≤ page) (hs : 1 ≤ s) (hmax : s ≤ svc.max_page_size) :
    PaginationService.add_pagination_to_query svc q page (some s) =
      pyRstripSemi (PaginationService.stripLimitTailAscii q) ++ "\nLIMIT " ++
        pyIntStr s ++ " OFFSET " ++ pyIntStr ((page - 1) * s) ++ ";" := by
  simp only [PaginationService.add_pagination_to_query,
    effPageSize_of_in_range svc s (by omega) hmax, effPage_of_ge page hp,
    stripLimitTail_eq_ascii q hascii]

theorem C6_rewrite_appends_bound_witness :
    (∀ c ∈ ("SELECT * FROM t" : String).data, c.toNat < 128) ∧
    (1 : Int) ≤ 2 ∧ (1 : Int) ≤ 10 ∧ (10 : Int) ≤ pagination_service.max_page_size ∧
    PaginationService.add_pagination_to_query pagination_service
        "SELECT * FROM t" 2 (some 10) =
      pyRstripSemi (PaginationService.stripLimitTailAscii "SELECT * FROM t") ++
        "\nLIMIT " ++ pyIntStr 10 ++ " OFFSET " ++
        pyIntStr (((2 : Int) - 1) * 10) ++ ";" ∧
    PaginationService.add_pagination_to_query pagination_service
        "SELECT * FROM t" 2 (some 10) = "SELECT * FROM t\nLIMIT 10 OFFSET 10;" :=
  ⟨by decide, by decide, by decide, by decide,
    C6_rewrite_appends_bound pagination_service "SELECT * FROM t" 2 10
      (by decide) (by decide) (by decide) (by decide),
    by rfl⟩

/-- With the primary tier absent or raising on every call, `get` reduces to
the disk-tier lookup guarded by value truthiness. -/
theorem get_of_no_primary (redis : Option RedisState)
    (hredis : redis = none ∨ ∃ r, redis = some r ∧ r.failing = true)
    (d : List DiskEntry) (dflt t : Nat) (q : String)
    (params : Option (List (String × PyValue))) :
    CacheService.get ⟨redis, some d, dflt⟩ t q params =
      match CacheService.diskLookup d t (CacheService.generate_key q params) with
      | some v => if v.truthy then some v else none
      | none => none := by
  obtain h | ⟨r, hr, hf⟩ := hredis
  · subst h
    rfl
  · subst hr
    simp [CacheService.get, hf]

/-- C1 fails as stated: the key deriver hashes
`f"{query}_{params}"`, and Python renders the dict in *insertion order*,
so two mappings equal as sets of pairs but inserted in different orders
derive different keys. -/
theorem C1_counterexample :
    ((([("a", PyValue.int 1), ("b", PyValue.int 2)] :
        List (String × PyValue)) : Multiset (String × PyValue)) =
      (([("b", PyValue.int 2), ("a", PyValue.int 1)] :
        List (String × PyValue)) : Multiset (String × PyValue))) ∧
    CacheService.generate_key "q"
        (some [("a", PyValue.int 1), ("b", PyValue.int 2)]) ≠
      CacheService.generate_key "q"
        (some [("b", PyValue.int 2), ("a", PyValue.int 1)]) := by
  constructor
  · exact Multiset.coe_eq_coe.mpr (List.Perm.swap _ _ _)
  · decide

/-- C1 amended: the key deriver is a pure function of the query text and
the *insertion-ordered* parameter mapping — two mappings with the same
pairs in the same order (pointwise equal item sequences) derive the same
key; insertion order, however, can change the key. -/
theorem C1_generate_key_deterministic (q : String)
    (p1 p2 : List (String × PyValue)) (h : ∀ n, p1.get? n = p2.get? n) :
    CacheService.generate_key q (some p1) =
      CacheService.generate_key q (some p2) := by
  rw [List.ext_get? h]

theorem C1_generate_key_deterministic_witness :
    CacheService.generate_key "q" (some [("a", PyValue.int 1)]) =
      CacheService.generate_key "q" (some [("a", PyValue.int 1)]) :=
  C1_generate_key_deterministic "q" _ _ (fun _ => rfl)

/-- C2: the claimed fallback (`set` succeeds via the disk tier and the
value reads back) is the unmistakable intent — the code comments `Always
store in disk cache as backup` and the cache is the system's whole reason
to exist — but the disk write *always* raises: `disk_cache.set` is passed
a `datetime` where diskcache expects seconds (a float), the `TypeError`
is swallowed, and nothing is stored.  With the primary tier absent or
failing, `set` therefore returns `False` and leaves the cache state
completely unchanged, so the following `get` cannot observe the written
value. -/
theorem C2_set_fails_without_primary (redis : Option RedisState)
    (hredis : redis = none ∨ ∃ r, redis = some r ∧ r.failing = true)
    (disk : Option (List DiskEntry)) (dflt : Nat) (q : String)
    (params : Option (List (String × PyValue))) (v : PyValue)
    (ttl : Option Nat) (now : Nat) :
    (CacheService.set ⟨redis, disk, dflt⟩ now q v ttl params).1 = false ∧
    (CacheService.set ⟨redis, disk, dflt⟩ now q v ttl params).2 =
      ⟨redis, disk, dflt⟩ := by
  obtain h | ⟨r, hr, hf⟩ := hredis
  · subst h
    cases disk <;> simp [CacheService.set]
  · subst hr
    cases disk <;> simp [CacheService.set, hf]

theorem C2_set_fails_without_primary_witness :
    (CacheService.set ⟨none, some [], 300⟩ 0 "q" (PyValue.str "row")
        (some 60) none).1 = false ∧
    (CacheService.set ⟨none, some [], 300⟩ 0 "q" (PyValue.str "row")
        (some 60) none).2 = ⟨none, some [], 300⟩ :=
  C2_set_fails_without_primary none (Or.inl rfl) (some []) 300 "q" none
    (PyValue.str "row") (some 60) 0

/-- C10 fails as stated: with an *operational* primary tier holding the
key, a cached falsy payload (here the empty list) IS returned to the
caller — the Redis hit check `if cached:` tests the serialized JSON
string, which is nonempty and hence truthy for every stored value. -/
theorem C10_counterexample :
    (PyValue.list []).truthy = false ∧
    CacheService.get
        (CacheService.set ⟨some ⟨[], false⟩, some [], 300⟩ 0 "q"
          (PyValue.list []) (some 60) none).2 10 "q" none =
      some (PyValue.list []) :=
  ⟨rfl, rfl⟩

/-- C10 amended: only when the primary tier is absent (or failing on every
call) is a falsy cached value treated as a miss: the disk tier's
`if cached:` guard rejects it and `get` returns absent. -/
theorem C10_falsy_disk_miss (redis : Option RedisState)
    (hredis : redis = none ∨ ∃ r, redis = some r ∧ r.failing = true)
    (d : List DiskEntry) (dflt now : Nat) (q : String)
    (params : Option (List (String × PyValue)))
    (v : PyValue) (hv : v.truthy = false)
    (hstored : CacheService.diskLookup d now (CacheService.generate_key q params)
      = some v) :
    CacheService.get ⟨redis, some d, dflt⟩ now q params = none := by
  rw [get_of_no_primary redis hredis, hstored]
  simp [hv]

theorem C10_falsy_disk_miss_witness :
    (PyValue.int 0).truthy = false ∧
    CacheService.diskLookup [⟨CacheService.generate_key "q" none, PyValue.int 0, 100⟩]
        5 (CacheService.generate_key "q" none) = some (PyValue.int 0) ∧
    CacheService.get
        ⟨none, some [⟨CacheService.generate_key "q" none, PyValue.int 0, 100⟩], 300⟩
        5 "q" none = none :=
  ⟨rfl, by simp [CacheService.diskLookup],
    C10_falsy_disk_miss none (Or.inl rfl) _ 300 5 "q" none (PyValue.int 0) rfl
      (by simp [CacheService.diskLookup])⟩

/-- C7: a cached `execute_query` / `execute_query_unlimited` call that
misses the cache and whose remote execution succeeds writes the result set
back with the caller-supplied TTL exactly when it contains at least one
row; a zero-row result leaves the cache state untouched. -/
theorem C7_cache_writeback (st : CacheState) (now : Nat)
    (remote : String → Except String (List PyValue)) (query : String)
    (parameters : Option (List (String × PyValue))) (cache_ttl : Nat)
    (rows : List PyValue) :
    (CacheService.get st now
        (query ++ "_" ++ DatabricksClient.paramSuffix parameters) none = none →
      remote (DatabricksClient.effectiveQuery query) = .ok rows →
      DatabricksClient.execute_query st now remote query parameters true
          cache_ttl =
        .ok (PyValue.list rows,
          if rows.isEmpty then st
          else (CacheService.set st now
            (query ++ "_" ++ DatabricksClient.paramSuffix parameters)
            (PyValue.list rows) (some cache_ttl) none).2)) ∧
    (CacheService.get st now query none = none →
      remote query = .ok rows →
      DatabricksClient.execute_query_unlimited st now remote query true
          cache_ttl =
        .ok (PyValue.list rows,
          if rows.isEmpty then st
          else (CacheService.set st now query (PyValue.list rows)
            (some cache_ttl) none).2)) := by
  constructor
  · intro hmiss hrem
    unfold DatabricksClient.execute_query
    simp only [if_true, hmiss, hrem]
    cases rows <;> simp
  · intro hmiss hrem
    unfold DatabricksClient.execute_query_unlimited
    simp only [if_true, hmiss, hrem]
    cases rows <;> simp

theorem C7_cache_writeback_witness :
    (CacheService.get ⟨none, some [], 300⟩ 0
        ("SELECT 1" ++ "_" ++ DatabricksClient.paramSuffix none) none = none →
      (fun _ => Except.ok [PyValue.int 1] :
          String → Except String (List PyValue))
          (DatabricksClient.effectiveQuery "SELECT 1") =
        .ok [PyValue.int 1] →
      DatabricksClient.execute_query ⟨none, some [], 300⟩ 0
          (fun _ => Except.ok [PyValue.int 1]) "SELECT 1" none true 60 =
        .ok (PyValue.list [PyValue.int 1],
          if [PyValue.int 1].isEmpty then (⟨none, some [], 300⟩ : CacheState)
          else (CacheService.set ⟨none, some [], 300⟩ 0
            ("SELECT 1" ++ "_" ++ DatabricksClient.paramSuffix none)
            (PyValue.list [PyValue.int 1]) (some 60) none).2)) ∧
    (CacheService.get ⟨none, some [], 300⟩ 0 "SELECT 1" none = none →
      (fun _ => Except.ok [PyValue.int 1] :
          String → Except String (List PyValue)) "SELECT 1" =
        .ok [PyValue.int 1] →
      DatabricksClient.execute_query_unlimited ⟨none, some [], 300⟩ 0
          (fun _ => Except.ok [PyValue.int 1]) "SELECT 1" true 60 =
        .ok (PyValue.list [PyValue.int 1],
          if [PyValue.int 1].isEmpty then (⟨none, some [], 300⟩ : CacheState)
          else (CacheService.set ⟨none, some [], 300⟩ 0 "SELECT 1"
            (PyValue.list [PyValue.int 1]) (some 60) none).2)) :=
  C7_cache_writeback ⟨none, some [], 300⟩ 0 (fun _ => Except.ok [PyValue.int 1])
    "SELECT 1" none 60 [PyValue.int 1]

/-! ## Idempotence analysis of the query rewriter (C5)

`add_pagination_to_query` appends `"\nLIMIT {ps} OFFSET {off};"` to the
stripped base.  Re-running it finds that appended `LIMIT` as the *last*
occurrence, cuts there, and additionally `rstrip`s the base — so the
second output differs from the first exactly when the base had trailing
whitespace. -/

end PMO
